import Mathlib

/-!
Shallow embedding of `src/streamlit_app.py` (version 2 of the avatar page):
the session-lifecycle state, the three external-service adapters and the
turn driver, each translated from the Python source.  Remote behaviour
(HTTP statuses, SDK outcomes) is supplied as explicit arguments, and each
handler returns the new session state together with the ordered list of
outbound adapter calls it issued and the user-visible notices it emitted.
-/

/-- Whitespace test for the ASCII whitespace characters removed by Python
str.strip(). -/
def isPySpace (c : Char) : Bool := c = ' ' || c = '\t' || c = '\n' || c = '\r'

/-- Model of Python str.strip(): removes leading and trailing whitespace. -/
def pyStrip (s : String) : String :=
  ⟨((s.data.dropWhile isPySpace).reverse.dropWhile isPySpace).reverse⟩

/-- Python truthiness of the send handler's text variable, which holds None or
a string: None and the empty string are falsy, every other string is truthy. -/
def pyTruthy : Option String → Bool
  | none => false
  | some t => !(t == "")

/-- Classification of an adapter failure (spec section 7): each RuntimeError
raise site in streamlit_app.py is tagged with the branch that raised it —
auth for the 401/403 and AuthenticationError branches, quota for the 429 and
RateLimitError branches, remote for every other failure. -/
inductive ErrorKind where
  | auth
  | quota
  | remote
deriving DecidableEq

/-- An adapter failure: the classification branch that fired plus the message
text of the raised exception. -/
structure AdapterError where
  kind : ErrorKind
  msg : String
deriving DecidableEq

/-- One chat-completion message, an element of the messages payload built by
openai_chat_reply. -/
structure ChatMessage where
  role : String
  content : String
deriving DecidableEq

/-- One element of the choices list of a chat-completion response. -/
structure Choice where
  message : ChatMessage
deriving DecidableEq

/-- The part of a chat-completion response that openai_chat_reply reads:
resp.choices. -/
structure ChatResponse where
  choices : List Choice
deriving DecidableEq

/-- Exception classes of the openai Python SDK that the adapters either catch
by name (AuthenticationError, RateLimitError) or let fall to the generic
except branch (PermissionDeniedError and everything else). -/
inductive OpenAIExc where
  | authenticationError
  | rateLimitError
  | permissionDeniedError
  | otherExc (msg : String)
deriving DecidableEq

/-- Outcome of a call through the openai SDK client: a returned value, or a
raised exception. -/
inductive SdkOutcome (α : Type) where
  | success (val : α)
  | raised (e : OpenAIExc)
deriving DecidableEq

/-- Modelled from the openai-python SDK (third-party code, not part of this
repository): its documented mapping from the HTTP status of a failed request
to the exception class it raises — 401 AuthenticationError, 403
PermissionDeniedError, 429 RateLimitError, any other status ≥ 400 some other
APIStatusError subclass. -/
def sdkExcOfStatus (status : Nat) (msg : String) : OpenAIExc :=
  if status = 401 then .authenticationError
  else if status = 403 then .permissionDeniedError
  else if status = 429 then .rateLimitError
  else .otherExc msg

/-- Outcome of an openai SDK call whose HTTP request came back with the given
status: the value for a status below 400, otherwise the raised exception for
that status. -/
def sdkOutcomeOfStatus {α : Type} (status : Nat) (ok : α) (msg : String) :
    SdkOutcome α :=
  if status < 400 then .success ok else .raised (sdkExcOfStatus status msg)

/-- Message text of an SDK exception, as interpolated into the generic error
messages. -/
def excText : OpenAIExc → String
  | .authenticationError => "AuthenticationError"
  | .rateLimitError => "RateLimitError"
  | .permissionDeniedError => "PermissionDeniedError"
  | .otherExc m => m

/-- Embedding of openai_transcribe_wav (streamlit_app.py lines 60-71): the
outcome of the SDK transcription call is the argument; AuthenticationError
and RateLimitError are re-raised with dedicated messages, everything else
falls to the generic except branch. -/
def openai_transcribe_wav (call : SdkOutcome String) : Except AdapterError String :=
  match call with
  | .success t => .ok t
  | .raised .authenticationError =>
      .error ⟨.auth, "OpenAI auth failed during transcription."⟩
  | .raised .rateLimitError =>
      .error ⟨.quota, "OpenAI quota exceeded during transcription."⟩
  | .raised e => .error ⟨.remote, "Transcription error: " ++ excText e⟩

/-- Messages payload built by openai_chat_reply (lines 74-76): the fixed
system instruction, then the supplied history, then the new prompt appended
as the last user message. -/
def chatMessagesPayload (prompt : String) (history : List ChatMessage) :
    List ChatMessage :=
  [⟨"system", "You are a concise, friendly assistant."⟩] ++ history ++
    [⟨"user", prompt⟩]

/-- Embedding of openai_chat_reply (lines 73-85): builds the messages
payload, performs the completion call (the remote endpoint is the complete
argument), and reads resp.choices[0].message.content; an out-of-range index
on an empty choices list raises inside the try block and is caught, like any
other unexpected exception, by the generic except branch. -/
def openai_chat_reply (prompt : String) (history : List ChatMessage)
    (complete : List ChatMessage → SdkOutcome ChatResponse) :
    Except AdapterError String :=
  match complete (chatMessagesPayload prompt history) with
  | .success resp =>
      match resp.choices with
      | [] => .error ⟨.remote, "Chat error: list index out of range"⟩
      | c :: _ => .ok c.message.content
  | .raised .authenticationError => .error ⟨.auth, "OpenAI auth failed during chat."⟩
  | .raised .rateLimitError => .error ⟨.quota, "OpenAI quota exceeded during chat."⟩
  | .raised e => .error ⟨.remote, "Chat error: " ++ excText e⟩

/-- Outcome of the requests.post call to the conversation-creation endpoint:
an HTTP response carrying the status and the two JSON fields the code reads,
or a transport-level exception. -/
inductive CreateOutcome where
  | response (status : Nat) (conversation_id : String) (conversation_url : String)
  | transportError (msg : String)
deriving DecidableEq

/-- Outcome of a requests.post call whose response body is read only as error
text. -/
inductive HttpOutcome where
  | response (status : Nat) (text : String)
  | transportError (msg : String)
deriving DecidableEq

/-- Embedding of create_conversation (lines 89-107): status 429 is classified
first, then 401/403; r.raise_for_status() raises for the remaining 4xx/5xx
statuses; on success the conversation_id and conversation_url fields of the
response are returned.  A transport exception propagates to the caller like
any other error. -/
def create_conversation (outcome : CreateOutcome) :
    Except AdapterError (String × String) :=
  match outcome with
  | .transportError m => .error ⟨.remote, m⟩
  | .response status cid curl =>
    if status = 429 then
      .error ⟨.quota,
        "Tavus quota/rate limit exceeded while creating conversation (HTTP 429)."⟩
    else if status = 401 ∨ status = 403 then
      .error ⟨.auth, "Tavus auth failed while creating conversation."⟩
    else if 400 ≤ status ∧ status < 600 then
      .error ⟨.remote, "HTTP error " ++ toString status ++ " for url"⟩
    else
      .ok (cid, curl)

/-- Embedding of end_conversation (lines 109-114): the whole request sits
inside try/except pass, so every outcome — any HTTP status and any transport
failure — returns successfully and nothing is surfaced. -/
def end_conversation (outcome : HttpOutcome) : Except AdapterError Unit :=
  match outcome with
  | _ => .ok ()

/-- Embedding of broadcast_echo (lines 116-134): status 429 is classified as
quota, 401/403 as auth, and any other status ≥ 400 as the generic echo
failure; below 400 the call succeeds. -/
def broadcast_echo (outcome : HttpOutcome) : Except AdapterError Unit :=
  match outcome with
  | .transportError m => .error ⟨.remote, m⟩
  | .response status txt =>
    if status = 429 then
      .error ⟨.quota, "Tavus quota/rate limit exceeded when speaking (HTTP 429)."⟩
    else if status = 401 ∨ status = 403 then
      .error ⟨.auth, "Tavus auth failed when broadcasting echo."⟩
    else if 400 ≤ status then
      .error ⟨.remote, "Echo failed (" ++ toString status ++ "): " ++ txt⟩
    else
      .ok ()

/-- Embedding of the transcript logger _append (lines 138-142): appends one
(role, stripped text) line to the transcript file; the wall-clock timestamp
and the upper-casing of the role tag are presentation only and omitted. -/
def transcriptAppend (role text : String) (log : List (String × String)) :
    List (String × String) :=
  log ++ [(role, pyStrip text)]

/-- Per-user Streamlit session state used by the app (lines 157-161): the
conv_id, conv_url and chat entries of st.session_state, plus the contents of
the transcript file written through _append. -/
structure SessState where
  conv_id : Option String
  conv_url : Option String
  chat : List (String × String)
  transcript : List (String × String)
deriving DecidableEq

/-- Outbound adapter calls, recorded in the order the handlers issue them. -/
inductive Call where
  | endConversation (conversation_id : String)
  | createConversation
  | transcribe
  | chatCompletion (messages : List ChatMessage)
  | speak (conversation_id : String) (text : String)
deriving DecidableEq

/-- User-visible notices, emitted through st.error, st.warning and st.toast. -/
inductive UiMsg where
  | errorMsg (s : String)
  | warningMsg (s : String)
  | toastMsg (s : String)
deriving DecidableEq

/-- Remote-world behaviour for one script run: the outcome each external call
would have if it were issued during that run. -/
structure Env where
  validate : Except String Unit
  createOutcome : CreateOutcome
  transcribeOutcome : SdkOutcome String
  complete : List ChatMessage → SdkOutcome ChatResponse
  echoOutcome : HttpOutcome
  endOutcome : HttpOutcome

/-- Embedding of the Start handler (lines 204-222): validate the OpenAI key
(st.stop on failure), end any previous session best-effort, then create a new
conversation — storing conv_id and conv_url on success, showing an error and
stopping on failure (the previous local state is then left in place). -/
def startHandler (env : Env) (s : SessState) : SessState × List Call × List UiMsg :=
  match env.validate with
  | .error e => (s, [], [.errorMsg e])
  | .ok _ =>
    let endCalls : List Call :=
      match s.conv_id with
      | some cid => [.endConversation cid]
      | none => []
    match create_conversation env.createOutcome with
    | .ok cu =>
      ({ s with conv_id := some cu.1, conv_url := some cu.2 },
        endCalls ++ [.createConversation], [.toastMsg "Session started."])
    | .error e =>
      (s, endCalls ++ [.createConversation],
        [.errorMsg ("Failed to start: " ++ e.msg)])

/-- States reached by a sequence of Start presses, the initial state
included. -/
def startStates (envs : List Env) (s : SessState) : List SessState :=
  envs.scanl (fun st e => (startHandler e st).1) s

/-- Number of active sessions held in the local state: one exactly when
conv_id is present. -/
def activeSessions (s : SessState) : Nat :=
  s.conv_id.toList.length

/-- Embedding of the End handler (lines 246-251): the button is rendered only
while conv_id is set; pressing it calls end_conversation (whose result is
ignored) and then clears conv_id and conv_url unconditionally. -/
def endHandler (env : Env) (s : SessState) : SessState × List Call × List UiMsg :=
  match s.conv_id with
  | none => (s, [], [])
  | some cid =>
    match end_conversation env.endOutcome with
    | _ =>
      ({ s with conv_id := none, conv_url := none },
        [.endConversation cid], [.toastMsg "Session ended."])

/-- Chat history of a state in the message format the pipeline sends to the
dialogue adapter (line 279): one message per (role, content) chat entry. -/
def historyOf (s : SessState) : List ChatMessage :=
  s.chat.map (fun rc => ChatMessage.mk rc.1 rc.2)

/-- Warning text shown when neither audio nor typed text is available. -/
def noInputNotice : String := "Please record audio or type a message."

/-- Warning text shown at the speak step when no session is active. -/
def noSessionNotice : String := "No active Tavus conversation. Tap Start to open a session."

/-- Embedding of run_pipeline (lines 273-296) together with the try/except at
its call site (lines 311-315): log and strip the input, call the dialogue
adapter with the prior chat as history, and only on success log and strip the
reply, append the user and assistant turns to the chat, and attempt the echo
when a session is active (else warn). -/
def run_pipeline (env : Env) (user_text : String) (s : SessState) :
    SessState × List Call × List UiMsg :=
  let inp := pyStrip user_text
  let s0 := { s with transcript := transcriptAppend "input" user_text s.transcript }
  let history := historyOf s
  let dlgCall := Call.chatCompletion (chatMessagesPayload inp history)
  match openai_chat_reply inp history env.complete with
  | .error e => (s0, [dlgCall], [.errorMsg e.msg])
  | .ok reply =>
    let s1 := { s0 with transcript := transcriptAppend "output" reply s0.transcript }
    let out := pyStrip reply
    let s2 := { s1 with chat := s1.chat ++ [("user", inp), ("assistant", out)] }
    match s.conv_id with
    | none => (s2, [dlgCall], [.warningMsg noSessionNotice])
    | some cid =>
      match broadcast_echo env.echoOutcome with
      | .ok _ => (s2, [dlgCall, .speak cid out], [])
      | .error e => (s2, [dlgCall, .speak cid out], [.errorMsg e.msg])

/-- Embedding of the input-resolution prefix of the send handler (lines
299-307): when audio was captured the transcription is attempted (a failure
shows an error and leaves text unset); a falsy text — unset or the empty
string — then falls back to the stripped typed text when that is non-empty. -/
def resolve_input (mic : Option (Except AdapterError String)) (typed : String) :
    Option String × List Call × List UiMsg :=
  let step1 : Option String × List Call × List UiMsg :=
    match mic with
    | none => (none, [], [])
    | some (.ok t) => (some t, [.transcribe], [])
    | some (.error e) => (none, [.transcribe], [.errorMsg e.msg])
  let text1 : Option String :=
    if !(pyTruthy step1.1) && !(pyStrip typed == "") then some (pyStrip typed)
    else step1.1
  (text1, step1.2.1, step1.2.2)

/-- Embedding of the send handler (lines 298-315): resolve the input, warn
when the resolved text is still falsy, otherwise run the pipeline.  The
micPresent flag states whether mic_blob is not None. -/
def sendHandler (env : Env) (micPresent : Bool) (typed : String) (s : SessState) :
    SessState × List Call × List UiMsg :=
  let mic : Option (Except AdapterError String) :=
    if micPresent then some (openai_transcribe_wav env.transcribeOutcome) else none
  let r := resolve_input mic typed
  match r.1 with
  | none => (s, r.2.1, r.2.2 ++ [.warningMsg noInputNotice])
  | some t =>
    if t = "" then (s, r.2.1, r.2.2 ++ [.warningMsg noInputNotice])
    else
      let p := run_pipeline env t s
      (p.1, r.2.1 ++ p.2.1, r.2.2 ++ p.2.2)

/-- Classification tag of an adapter result: the error kind when it failed,
none on success. -/
def errKind {α : Type} : Except AdapterError α → Option ErrorKind
  | .error e => some e.kind
  | .ok _ => none

/-- Remote behaviour in which every call succeeds: create returns the sample
session of the spec scenario, transcription returns "hello", and the
completion returns one choice "Hi there!". -/
def envHappy : Env where
  validate := .ok ()
  createOutcome := .response 200 "abc123" "https://room/abc123"
  transcribeOutcome := .success "hello"
  complete := fun _ => .success ⟨[⟨⟨"assistant", "Hi there!"⟩⟩]⟩
  echoOutcome := .response 200 ""
  endOutcome := .response 200 ""

/-- Remote behaviour whose chat-completion call fails with a rate limit. -/
def envDlgFail : Env :=
  { envHappy with complete := fun _ => .raised .rateLimitError }

/-- Remote behaviour whose transcription returns the empty string. -/
def envEmptyTrans : Env :=
  { envHappy with transcribeOutcome := .success "" }

/-- Remote behaviour whose transcription returns a whitespace-only string. -/
def envWsTrans : Env :=
  { envHappy with transcribeOutcome := .success " " }

/-- Remote behaviour whose transcription call fails with a rate limit. -/
def envTransFail : Env :=
  { envHappy with transcribeOutcome := .raised .rateLimitError }

/-- Remote behaviour whose echo call fails with a server error. -/
def envEchoFail : Env :=
  { envHappy with echoOutcome := .response 500 "boom" }

/-- Fresh session state: no conversation, empty chat and transcript. -/
def freshState : SessState := ⟨none, none, [], []⟩

/-- Session state in which the sample conversation is active. -/
def activeState : SessState :=
  ⟨some "abc123", some "https://room/abc123", [], []⟩

/-- C1: over every sequence of Start presses at most one session is active at
any time, and a Start press issued while a session cid is active places the
end call for cid before the create call — concretely its call list is either
empty (key validation failed, st.stop before any Tavus call) or exactly
[endConversation cid, createConversation]. -/
theorem start_press_lifecycle (envs : List Env) (s0 : SessState)
    (env : Env) (s : SessState) (cid : String) (hact : s.conv_id = some cid) :
    (∀ st ∈ startStates envs s0, activeSessions st ≤ 1) ∧
    ((startHandler env s).2.1 = [] ∨
      (startHandler env s).2.1 =
        [Call.endConversation cid, Call.createConversation]) := by
  constructor
  · intro st _
    unfold activeSessions
    cases st.conv_id <;> simp
  · unfold startHandler
    cases env.validate with
    | error e => simp
    | ok u =>
      cases create_conversation env.createOutcome <;> simp [hact]

/-- Witness for C1 at a concrete active state and a concrete press. -/
theorem start_press_lifecycle_witness :
    activeState.conv_id = some "abc123" ∧
    ((∀ st ∈ startStates [envHappy] freshState, activeSessions st ≤ 1) ∧
      ((startHandler envHappy activeState).2.1 = [] ∨
        (startHandler envHappy activeState).2.1 =
          [Call.endConversation "abc123", Call.createConversation])) :=
  ⟨rfl, start_press_lifecycle [envHappy] freshState envHappy activeState "abc123" rfl⟩

/-- C4: end_conversation returns successfully for every outcome — network and
HTTP failures are swallowed — and pressing End while a session is active
clears conv_id and conv_url and emits no error message. -/
theorem end_clears_session (env : Env) (s : SessState) (cid : String)
    (outcome : HttpOutcome) (hact : s.conv_id = some cid) :
    end_conversation outcome = .ok () ∧
    (endHandler env s).1.conv_id = none ∧
    (endHandler env s).1.conv_url = none ∧
    (∀ m, UiMsg.errorMsg m ∉ (endHandler env s).2.2) := by
  refine ⟨rfl, ?_, ?_, ?_⟩ <;> unfold endHandler <;> simp [hact]

/-- Witness for C4: ending the sample active session while the remote end
call has a transport failure. -/
theorem end_clears_session_witness :
    activeState.conv_id = some "abc123" ∧
    (end_conversation (.transportError "network down") = .ok () ∧
      (endHandler envHappy activeState).1.conv_id = none ∧
      (endHandler envHappy activeState).1.conv_url = none ∧
      (∀ m, UiMsg.errorMsg m ∉ (endHandler envHappy activeState).2.2)) :=
  ⟨rfl, end_clears_session envHappy activeState "abc123"
    (.transportError "network down") rfl⟩

/-- C6: a send press with no captured audio and no non-whitespace typed text
leaves the state untouched, issues no adapter call, and shows only the
no-input notice. -/
theorem empty_send_is_noop (env : Env) (s : SessState) (typed : String)
    (h : pyStrip typed = "") :
    sendHandler env false typed s = (s, [], [UiMsg.warningMsg noInputNotice]) := by
  unfold sendHandler resolve_input
  simp [h, pyTruthy]

/-- Witness for C6 at whitespace typed text and no audio. -/
theorem empty_send_is_noop_witness :
    pyStrip " " = "" ∧
    sendHandler envHappy false " " freshState =
      (freshState, [], [UiMsg.warningMsg noInputNotice]) :=
  ⟨by decide, empty_send_is_noop envHappy freshState " " (by decide)⟩

/-- C2 counterexample: when the dialogue call fails (quota) on the typed turn
"hello", the claim predicts the already-recorded user turn stays visible in
the chat history; the code leaves the chat history empty, because the user
turn is appended only after the reply is obtained. -/
theorem turn_dialogue_failure_cex :
    (sendHandler envDlgFail false "hello" freshState).1.chat = [] ∧
    ([] : List (String × String)) ≠ [("user", "hello")] := ⟨rfl, by decide⟩

/-- C2 (amended): a failing adapter call aborts the rest of the turn at the
failing step and completed steps are not rolled back, with the corrections
the code forces: a dialogue failure leaves the chat history unchanged (only
the transcript log already holds the input line) and makes no speak call; a
speak failure leaves the two already-appended turns in place; a failing
transcription falls back to the typed text when non-whitespace typed text is
present and otherwise ends the turn with no further adapter calls. -/
theorem turn_failure_policy (env : Env) (s : SessState) (text typed : String) :
    (∀ e, openai_chat_reply (pyStrip text) (historyOf s) env.complete = .error e →
      (run_pipeline env text s).1.chat = s.chat ∧
      (run_pipeline env text s).1.transcript =
        transcriptAppend "input" text s.transcript ∧
      (∀ cid t, Call.speak cid t ∉ (run_pipeline env text s).2.1) ∧
      UiMsg.errorMsg e.msg ∈ (run_pipeline env text s).2.2) ∧
    (∀ cid reply e, s.conv_id = some cid →
      openai_chat_reply (pyStrip text) (historyOf s) env.complete = .ok reply →
      broadcast_echo env.echoOutcome = .error e →
      (run_pipeline env text s).1.chat =
        s.chat ++ [("user", pyStrip text), ("assistant", pyStrip reply)] ∧
      UiMsg.errorMsg e.msg ∈ (run_pipeline env text s).2.2) ∧
    (∀ e, openai_transcribe_wav env.transcribeOutcome = .error e →
      (pyStrip typed = "" →
        sendHandler env true typed s =
          (s, [Call.transcribe],
            [UiMsg.errorMsg e.msg, UiMsg.warningMsg noInputNotice])) ∧
      (pyStrip typed ≠ "" →
        sendHandler env true typed s =
          ((run_pipeline env (pyStrip typed) s).1,
            Call.transcribe :: (run_pipeline env (pyStrip typed) s).2.1,
            UiMsg.errorMsg e.msg :: (run_pipeline env (pyStrip typed) s).2.2))) := by
  refine ⟨?_, ?_, ?_⟩
  · intro e he
    unfold run_pipeline
    simp [he]
  · intro cid reply e hact hok hecho
    unfold run_pipeline
    simp [hact, hok, hecho]
  · intro e he
    constructor
    · intro htyped
      unfold sendHandler resolve_input
      simp [he, pyTruthy, htyped]
    · intro htyped
      unfold sendHandler resolve_input
      simp [he, pyTruthy, htyped]

/-- Witness for C2 at a failing dialogue call on the turn "hello". -/
theorem turn_failure_policy_witness :
    (openai_chat_reply (pyStrip "hello") (historyOf freshState) envDlgFail.complete =
      Except.error ⟨ErrorKind.quota, "OpenAI quota exceeded during chat."⟩) ∧
    ((run_pipeline envDlgFail "hello" freshState).1.chat = freshState.chat ∧
      (run_pipeline envDlgFail "hello" freshState).1.transcript =
        transcriptAppend "input" "hello" freshState.transcript ∧
      (∀ cid t, Call.speak cid t ∉ (run_pipeline envDlgFail "hello" freshState).2.1) ∧
      UiMsg.errorMsg "OpenAI quota exceeded during chat." ∈
        (run_pipeline envDlgFail "hello" freshState).2.2) :=
  ⟨rfl, (turn_failure_policy envDlgFail freshState "hello" "").1
    ⟨ErrorKind.quota, "OpenAI quota exceeded during chat."⟩ rfl⟩

/-- C10: chat-history mutation is atomic per pipeline run — on dialogue
success exactly the user/assistant pair is appended, and on dialogue failure
the chat is completely unchanged, because the user turn is appended only
after the dialogue reply is obtained. -/
theorem chat_mutation_atomic (env : Env) (s : SessState) (text : String) :
    (∃ reply,
      openai_chat_reply (pyStrip text) (historyOf s) env.complete = .ok reply ∧
      (run_pipeline env text s).1.chat =
        s.chat ++ [("user", pyStrip text), ("assistant", pyStrip reply)]) ∨
    (∃ e,
      openai_chat_reply (pyStrip text) (historyOf s) env.complete = .error e ∧
      (run_pipeline env text s).1.chat = s.chat) := by
  cases hr : openai_chat_reply (pyStrip text) (historyOf s) env.complete with
  | ok reply =>
    left
    refine ⟨reply, rfl, ?_⟩
    unfold run_pipeline
    simp only [hr]
    cases s.conv_id with
    | none => simp
    | some cid => cases broadcast_echo env.echoOutcome <;> simp
  | error e =>
    right
    refine ⟨e, rfl, ?_⟩
    unfold run_pipeline
    simp [hr]

/-- C3 counterexample: a 403 response to the transcription call makes the SDK
raise PermissionDeniedError, which the adapter's generic except branch turns
into the remote kind — not the auth kind the claim requires for 403. -/
theorem transcription_403_cex :
    errKind (openai_transcribe_wav (sdkOutcomeOfStatus 403 "" "forbidden")) =
      some ErrorKind.remote ∧
    some ErrorKind.remote ≠ some ErrorKind.auth := ⟨rfl, by decide⟩

/-- C3 (amended): for an HTTP status in the 4xx/5xx range, 401 is classified
as the auth kind by every adapter and 403 by the two Tavus adapters, while
the two OpenAI adapters classify 403 as the generic remote kind (their SDK
raises PermissionDeniedError there, which falls to the generic except
branch); 429 is the quota kind everywhere; every other status yields the
generic remote kind. -/
theorem adapter_error_classification (status : Nat) (cid curl txt t m : String)
    (h4 : 400 ≤ status) (h6 : status < 600) :
    errKind (create_conversation (.response status cid curl)) =
      some (if status = 429 then .quota
        else if status = 401 ∨ status = 403 then .auth else .remote) ∧
    errKind (broadcast_echo (.response status txt)) =
      some (if status = 429 then .quota
        else if status = 401 ∨ status = 403 then .auth else .remote) ∧
    errKind (openai_transcribe_wav (sdkOutcomeOfStatus status t m)) =
      some (if status = 429 then .quota
        else if status = 401 then .auth else .remote) ∧
    (∀ prompt history resp,
      errKind (openai_chat_reply prompt history
        (fun _ => sdkOutcomeOfStatus status resp m)) =
      some (if status = 429 then .quota
        else if status = 401 then .auth else .remote)) := by
  rcases eq_or_ne status 429 with rfl | h429
  · exact ⟨rfl, rfl, rfl, fun p h r => rfl⟩
  rcases eq_or_ne status 401 with rfl | h401
  · exact ⟨rfl, rfl, rfl, fun p h r => rfl⟩
  rcases eq_or_ne status 403 with rfl | h403
  · exact ⟨rfl, rfl, rfl, fun p h r => rfl⟩
  have hn400 : ¬ status < 400 := by omega
  have hno : ¬(status = 401 ∨ status = 403) := not_or.mpr ⟨h401, h403⟩
  have hsdk : ∀ {α : Type} (ok : α),
      sdkOutcomeOfStatus status ok m = .raised (.otherExc m) := by
    intro α ok
    unfold sdkOutcomeOfStatus sdkExcOfStatus
    rw [if_neg hn400, if_neg h401, if_neg h403, if_neg h429]
  refine ⟨?_, ?_, ?_, ?_⟩
  · simp only [create_conversation]
    rw [if_neg h429, if_neg hno, if_pos ⟨h4, h6⟩, if_neg h429, if_neg hno]
    rfl
  · simp only [broadcast_echo]
    rw [if_neg h429, if_neg hno, if_pos h4, if_neg h429, if_neg hno]
    rfl
  · rw [hsdk t, if_neg h429, if_neg h401]
    rfl
  · intro p h r
    unfold openai_chat_reply
    rw [hsdk r, if_neg h429, if_neg h401]
    rfl

/-- Witness for C3 at the generic status 500. -/
theorem adapter_error_classification_witness :
    (400 ≤ 500 ∧ 500 < 600) ∧
    (errKind (create_conversation (.response 500 "c" "u")) =
      some (if 500 = 429 then .quota
        else if 500 = 401 ∨ 500 = 403 then .auth else .remote) ∧
    errKind (broadcast_echo (.response 500 "boom")) =
      some (if 500 = 429 then .quota
        else if 500 = 401 ∨ 500 = 403 then .auth else .remote) ∧
    errKind (openai_transcribe_wav (sdkOutcomeOfStatus 500 "t" "oops")) =
      some (if 500 = 429 then .quota
        else if 500 = 401 then .auth else .remote) ∧
    (∀ prompt history resp,
      errKind (openai_chat_reply prompt history
        (fun _ => sdkOutcomeOfStatus 500 resp "oops")) =
      some (if 500 = 429 then .quota
        else if 500 = 401 then .auth else .remote))) :=
  ⟨⟨by decide, by decide⟩,
    adapter_error_classification 500 "c" "u" "boom" "t" "oops"
      (by decide) (by decide)⟩

/-- C5: the dialogue request is exactly the fixed system instruction, then
the full ordered prior history, then the new prompt as the last user
message; the pipeline records that request built from the pre-turn chat (the
new user turn is appended to the chat only afterwards, so it is never in the
history); and the adapter returns the first choice's message content. -/
theorem dialogue_request_shape (env : Env) (s : SessState) (text : String)
    (c : Choice) (cs : List Choice)
    (hc : env.complete (chatMessagesPayload (pyStrip text) (historyOf s)) =
      .success ⟨c :: cs⟩) :
    chatMessagesPayload (pyStrip text) (historyOf s) =
      [⟨"system", "You are a concise, friendly assistant."⟩] ++ historyOf s ++
        [⟨"user", pyStrip text⟩] ∧
    (run_pipeline env text s).2.1.head? =
      some (Call.chatCompletion (chatMessagesPayload (pyStrip text) (historyOf s))) ∧
    openai_chat_reply (pyStrip text) (historyOf s) env.complete =
      .ok c.message.content := by
  refine ⟨rfl, ?_, ?_⟩
  · unfold run_pipeline
    cases hr : openai_chat_reply (pyStrip text) (historyOf s) env.complete with
    | ok reply =>
      simp only [hr]
      cases s.conv_id with
      | none => simp
      | some cid => cases broadcast_echo env.echoOutcome <;> simp
    | error e => simp [hr]
  · unfold openai_chat_reply
    rw [hc]

/-- Witness for C5 on the sample happy-path environment. -/
theorem dialogue_request_shape_witness :
    (envHappy.complete (chatMessagesPayload (pyStrip "hello") (historyOf freshState)) =
      SdkOutcome.success ⟨⟨⟨"assistant", "Hi there!"⟩⟩ :: []⟩) ∧
    (chatMessagesPayload (pyStrip "hello") (historyOf freshState) =
      [⟨"system", "You are a concise, friendly assistant."⟩] ++ historyOf freshState ++
        [⟨"user", pyStrip "hello"⟩] ∧
    (run_pipeline envHappy "hello" freshState).2.1.head? =
      some (Call.chatCompletion
        (chatMessagesPayload (pyStrip "hello") (historyOf freshState))) ∧
    openai_chat_reply (pyStrip "hello") (historyOf freshState) envHappy.complete =
      .ok (Choice.mk ⟨"assistant", "Hi there!"⟩).message.content) :=
  ⟨rfl, dialogue_request_shape envHappy freshState "hello"
    ⟨⟨"assistant", "Hi there!"⟩⟩ [] rfl⟩

/-- C7 counterexample: with captured audio whose transcription is the empty
string and typed text "hi", the resolved input is the typed text, not the
transcription: the chat records the user turn "hi". -/
theorem prefer_transcription_cex :
    (resolve_input (some (.ok "")) "hi").1 = some "hi" ∧
    some "hi" ≠ some "" ∧
    (sendHandler envEmptyTrans true "hi" freshState).1.chat =
      [("user", "hi"), ("assistant", "Hi there!")] := ⟨rfl, by decide, rfl⟩

/-- C7 (amended): when both audio and typed text are present and the
transcription succeeds with a non-empty result, the resolved input of the
turn is the transcription; an empty transcription falls back to the typed
text. -/
theorem prefer_transcription_amended (t typed : String) (ht : t ≠ "") :
    (resolve_input (some (.ok t)) typed).1 = some t := by
  unfold resolve_input
  simp [pyTruthy, ht]

/-- Witness for C7 at transcription "hello" and typed text "hi". -/
theorem prefer_transcription_amended_witness :
    "hello" ≠ "" ∧ (resolve_input (some (.ok "hello")) "hi").1 = some "hello" :=
  ⟨by decide, prefer_transcription_amended "hello" "hi" (by decide)⟩

/-- C8 counterexample: a whitespace-only transcription " " is truthy in
Python, so the caller does not fall back to the typed text "hi": the
resolved input stays " ", the pipeline runs, and the dialogue adapter is
called with the stripped — empty — prompt rather than the turn being treated
as no input. -/
theorem whitespace_transcription_cex :
    (resolve_input (some (.ok " ")) "hi").1 = some " " ∧
    some " " ≠ some "hi" ∧
    (sendHandler envWsTrans true "hi" freshState).2.1 =
      [Call.transcribe, Call.chatCompletion (chatMessagesPayload "" [])] :=
  ⟨rfl, by decide, rfl⟩

/-- C8 (amended): an empty-string transcription result is treated as no input
— the caller falls back to the typed text when that is non-whitespace and
otherwise shows the no-input notice — and is never an adapter-level error;
a whitespace-only non-empty result, however, is truthy and proceeds into the
pipeline. -/
theorem empty_transcription_no_input (env : Env) (s : SessState) (typed : String)
    (henv : env.transcribeOutcome = .success "") :
    resolve_input (some (.ok "")) typed =
      (if pyStrip typed = "" then some "" else some (pyStrip typed),
        [Call.transcribe], []) ∧
    (pyStrip typed = "" →
      sendHandler env true typed s =
        (s, [Call.transcribe], [UiMsg.warningMsg noInputNotice])) := by
  constructor
  · unfold resolve_input
    rcases eq_or_ne (pyStrip typed) "" with h | h
    · simp [pyTruthy, h]
    · simp [pyTruthy, h]
  · intro h
    unfold sendHandler resolve_input
    simp [henv, openai_transcribe_wav, pyTruthy, h]

/-- Witness for C8: empty transcription with typed text present falls back,
and with whitespace typed text only the notice is shown. -/
theorem empty_transcription_no_input_witness :
    (envEmptyTrans.transcribeOutcome = SdkOutcome.success "") ∧
    resolve_input (some (.ok "")) "hi" =
      (if pyStrip "hi" = "" then some "" else some (pyStrip "hi"),
        [Call.transcribe], []) ∧
    (pyStrip " " = "" →
      sendHandler envEmptyTrans true " " freshState =
        (freshState, [Call.transcribe], [UiMsg.warningMsg noInputNotice])) :=
  ⟨rfl, (empty_transcription_no_input envEmptyTrans freshState "hi" rfl).1,
    (empty_transcription_no_input envEmptyTrans freshState " " rfl).2⟩

/-- C9: a speak call recorded by the pipeline always carries the conv_id of
the active session, so speak is invoked only while a session is active; with
no active session the pipeline never calls speak and — whenever the turn
reaches the speak step, that is, the dialogue call succeeded — shows the
no-session warning instead. -/
theorem speak_only_when_active (env : Env) (s : SessState) (text : String) :
    (∀ cid t, Call.speak cid t ∈ (run_pipeline env text s).2.1 →
      s.conv_id.isSome = true) ∧
    (s.conv_id = none →
      (∀ cid t, Call.speak cid t ∉ (run_pipeline env text s).2.1) ∧
      (∀ reply,
        openai_chat_reply (pyStrip text) (historyOf s) env.complete = .ok reply →
        UiMsg.warningMsg noSessionNotice ∈ (run_pipeline env text s).2.2)) := by
  constructor
  · intro cid t hmem
    unfold run_pipeline at hmem
    cases hr : openai_chat_reply (pyStrip text) (historyOf s) env.complete with
    | ok reply =>
      simp only [hr] at hmem
      cases hcv : s.conv_id with
      | none => simp [hcv] at hmem
      | some cid2 => rfl
    | error e => simp [hr] at hmem
  · intro hcv
    constructor
    · intro cid t hmem
      unfold run_pipeline at hmem
      cases hr : openai_chat_reply (pyStrip text) (historyOf s) env.complete with
      | ok reply => simp [hr, hcv] at hmem
      | error e => simp [hr] at hmem
    · intro reply hr
      unfold run_pipeline
      simp [hr, hcv]

/-- Witness for C9: a successful turn with no active session shows the
warning and issues no speak call. -/
theorem speak_only_when_active_witness :
    freshState.conv_id = none ∧
    ((∀ cid t, Call.speak cid t ∉ (run_pipeline envHappy "hello" freshState).2.1) ∧
      (∀ reply,
        openai_chat_reply (pyStrip "hello") (historyOf freshState)
          envHappy.complete = .ok reply →
        UiMsg.warningMsg noSessionNotice ∈
          (run_pipeline envHappy "hello" freshState).2.2)) :=
  ⟨rfl, (speak_only_when_active envHappy freshState "hello").2 rfl⟩
